import Mathlib

set_option autoImplicit false

/-!
Verification of the request-binding and validation mechanism described by the
specification of this repository, against the endpoint declarations, data
models and handlers of `src/api/fastapi_guide.py`.  The binder itself is
framework code that is not part of the repository, so its operations are
modelled from the specification (sections 4.1-4.4, 6 and 7); the data models
(`Item`, `User`, `Item2`), the constraint literals, the module-level
dictionaries and the handler bodies are translated from the source file.
-/

/-- JSON-like runtime values: the wire representation of bodies and the typed
values the binder produces.  Numbers are either integers or exact rationals
(standing for the decimal literals of the source). -/
inductive Val where
  | vNull
  | vBool (b : Bool)
  | vInt (n : Int)
  | vRat (q : Rat)
  | vStr (s : String)
  | vList (elems : List Val)
  | vObj (fields : List (String × Val))

/-- The possible sources of a handler parameter (spec section 3,
ParameterDeclaration). -/
inductive ParamSource where
  | path
  | query
  | header
  | cookie
  | body
  | form
  | file
  deriving DecidableEq

/-- Primitive declared types appearing in the source file. -/
inductive PrimTy where
  | pStr
  | pInt
  | pFloat
  | pBool
  deriving DecidableEq

/-- Sub-kinds of constraint violations (spec section 7 taxonomy). -/
inductive ConstraintSub where
  | range
  | length
  | pattern
  | size
  deriving DecidableEq

/-- Error kinds of a FieldError (spec section 3, BindingResult). -/
inductive ErrKind where
  | missing
  | typeError
  | constraintViolation (sub : ConstraintSub)
  deriving DecidableEq

/-- One validation failure: location path, message and kind
(spec section 3, BindingResult). -/
structure FieldError where
  loc : List String
  msg : String
  kind : ErrKind
  deriving DecidableEq

/-- Declared constraints of a parameter (spec section 3, constraint set):
numeric bounds (inclusive `ge`/`le`, exclusive `gt`/`lt`), string length
bounds, a pattern predicate, and collection size bounds. -/
structure Constraints where
  ge : Option Rat
  gt : Option Rat
  le : Option Rat
  lt : Option Rat
  minLength : Option Nat
  maxLength : Option Nat
  patt : Option (String → Bool)
  minItems : Option Nat
  maxItems : Option Nat

/-- The empty constraint set. -/
def noConstraints : Constraints :=
  ⟨none, none, none, none, none, none, none, none, none⟩

/-- A named sub-field of a composite model: name, primitive type, required
flag, default and constraints.  The composite models of the source file
(`Item`, `User`, `UserIn`, `UserOut`, `Item2`, `Item3`) all have primitive
sub-fields, which this mirrors. -/
structure SubField where
  name : String
  ty : PrimTy
  required : Bool
  default : Val
  constraints : Constraints

/-- Declared type of a handler parameter: primitive, collection of a
primitive, or composite with named sub-fields. -/
inductive TyKind where
  | prim (t : PrimTy)
  | listOf (t : PrimTy)
  | composite (fields : List SubField)

/-- Whether a declared type is structured/composite (has named sub-fields). -/
def TyKind.isComposite : TyKind → Bool
  | .composite _ => true
  | _ => false

/-- Modelled from the spec: the source-resolution rule of spec section 4.1 for
parameters declared without an explicit source annotation.  The rule is
implemented inside the web framework, which is not part of `src/`; the comment
above `create_item3` (src lines 202-208) restates it.  Precedence, decided
once at registration time: path-template name match, then composite type, then
query. -/
def resolveSource (routePathVars : List String) (name : String) (ty : TyKind) :
    ParamSource :=
  if name ∈ routePathVars then .path
  else if ty.isComposite then .body
  else .query

/-- Lower-casing of a wire literal, character by character. -/
def lowerStr (s : String) : String :=
  String.mk (s.toList.map Char.toLower)

/-- Modelled from the spec: permissive boolean literal coercion of spec
section 4.3, demonstrated by the `short` query parameter of `read_item`
(src lines 70-88). -/
def coerceBool (raw : String) : Option Bool :=
  let l := lowerStr raw
  if l = "true" ∨ l = "1" ∨ l = "yes" ∨ l = "on" then some true
  else if l = "false" ∨ l = "0" ∨ l = "no" ∨ l = "off" then some false
  else none

/-- Reads a nonempty all-digit character list as a natural number. -/
def digitsToNat : List Char → Option Nat
  | [] => none
  | cs =>
    cs.foldl
      (fun acc c =>
        acc.bind fun n => if c.isDigit then some (n * 10 + (c.toNat - 48)) else none)
      (some 0)

/-- Reads an integer wire literal: optional minus sign, then digits. -/
def parseInt (s : String) : Option Int :=
  match s.toList with
  | '-' :: rest => (digitsToNat rest).map fun n => -(n : Int)
  | cs => (digitsToNat cs).map fun n => (n : Int)

/-- Splits a character list on a separator character. -/
def splitOnChar (sep : Char) : List Char → List (List Char)
  | [] => [[]]
  | c :: cs =>
    let r := splitOnChar sep cs
    if c = sep then [] :: r
    else
      match r with
      | [] => [[c]]
      | h :: t => (c :: h) :: t

/-- Modelled from the spec: parse of a decimal numeric wire literal
(optional sign, digits, optional fractional part) into an exact rational. -/
def parseDecimal (s : String) : Option Rat :=
  let signed :=
    match s.toList with
    | '-' :: rest => (true, rest)
    | cs => (false, cs)
  match splitOnChar '.' signed.2 with
  | [intPart] =>
    (digitsToNat intPart).map fun n =>
      if signed.1 then -(n : Rat) else (n : Rat)
  | [intPart, fracPart] =>
    (digitsToNat intPart).bind fun n =>
      (digitsToNat fracPart).map fun f =>
        let q : Rat := (n : Rat) + (f : Rat) / ((10 : Rat) ^ fracPart.length)
        if signed.1 then -q else q
  | _ => none

/-- Modelled from the spec: coercion of a raw wire string to a declared
primitive type (spec section 4.3); parse failures give no value. -/
def wireCoerce (t : PrimTy) (raw : String) : Option Val :=
  match t with
  | .pStr => some (.vStr raw)
  | .pInt => (parseInt raw).map .vInt
  | .pFloat => (parseDecimal raw).map .vRat
  | .pBool => (coerceBool raw).map .vBool

/-- Numeric view of a value, when it has one. -/
def numOf : Val → Option Rat
  | .vInt n => some (n : Rat)
  | .vRat q => some q
  | _ => none

/-- Numeric bound check (vacuously true for non-numeric values). -/
def checkNumericBounds (c : Constraints) (v : Val) : Bool :=
  match numOf v with
  | none => true
  | some q =>
    (match c.ge with | none => true | some b => decide (b ≤ q)) &&
    (match c.gt with | none => true | some b => decide (b < q)) &&
    (match c.le with | none => true | some b => decide (q ≤ b)) &&
    (match c.lt with | none => true | some b => decide (q < b))

/-- String length check (vacuously true for non-string values). -/
def checkStringLength (c : Constraints) (v : Val) : Bool :=
  match v with
  | .vStr s =>
    (match c.minLength with | none => true | some m => decide (m ≤ s.length)) &&
    (match c.maxLength with | none => true | some m => decide (s.length ≤ m))
  | _ => true

/-- Pattern check (vacuously true when no pattern is declared or the value is
not a string). -/
def checkPattern (c : Constraints) (v : Val) : Bool :=
  match v, c.patt with
  | .vStr s, some p => p s
  | _, _ => true

/-- Collection size check (vacuously true for non-collection values). -/
def checkSize (c : Constraints) (v : Val) : Bool :=
  match v with
  | .vList xs =>
    (match c.minItems with | none => true | some m => decide (m ≤ xs.length)) &&
    (match c.maxItems with | none => true | some m => decide (xs.length ≤ m))
  | _ => true

/-- Modelled from the spec: constraint validation of one coerced value, in the
fixed order of spec section 4.3 - numeric bounds, then string length, then
pattern, then collection size - short-circuiting on the first failure so that
at most one FieldError is produced per field. -/
def validateVal (c : Constraints) (loc : List String) (v : Val) :
    Option FieldError :=
  if checkNumericBounds c v then
    if checkStringLength c v then
      if checkPattern c v then
        if checkSize c v then none
        else some ⟨loc, "collection size out of bounds", .constraintViolation .size⟩
      else some ⟨loc, "pattern mismatch", .constraintViolation .pattern⟩
    else some ⟨loc, "string length out of bounds", .constraintViolation .length⟩
  else some ⟨loc, "value out of range", .constraintViolation .range⟩

/-- Modelled from the spec: the per-field pipeline of spec sections 4.2-4.3
for a scalar wire value - absence first (required gives `missing`, optional
binds the declared default), then type coercion, then the ordered constraint
checks. -/
def bindWireField (t : PrimTy) (c : Constraints) (loc : List String)
    (required : Bool) (default : Val) (raw : Option String) :
    Except FieldError Val :=
  match raw with
  | none =>
    if required then .error ⟨loc, "field required", .missing⟩
    else .ok default
  | some s =>
    match wireCoerce t s with
    | none => .error ⟨loc, "type error", .typeError⟩
    | some v =>
      match validateVal c loc v with
      | some e => .error e
      | none => .ok v

/-- One registered handler parameter (spec section 3,
ParameterDeclaration): name, optional alias, resolved source, declared type,
required flag, default, constraints, and the embed flag for body parameters. -/
structure ParamDecl where
  name : String
  aliasName : Option String
  source : ParamSource
  ty : TyKind
  required : Bool
  default : Val
  constraints : Constraints
  embed : Bool

/-- The externally visible name of a parameter: the alias when declared,
else the declared name (spec glossary, wire name). -/
def wireName (d : ParamDecl) : String :=
  d.aliasName.getD d.name

/-- Immutable view of one inbound request (spec section 3,
RequestSnapshot): extracted path variables, ordered query pairs, headers,
cookies, form fields, multipart parts, and the parsed body document. -/
structure RequestSnapshot where
  pathVars : List (String × String)
  query : List (String × String)
  headers : List (String × String)
  cookies : List (String × String)
  form : List (String × String)
  parts : List (String × String)
  body : Option Val

/-- Last value among duplicate keys of the ordered query pairs
(spec section 4.2: last-wins for scalar declarations). -/
def lastLookup (pairs : List (String × String)) (k : String) : Option String :=
  ((pairs.filter fun p => p.1 == k).getLast?).map Prod.snd

/-- All values for a key, in order (spec section 4.2: collection
declarations take every value). -/
def allValues (pairs : List (String × String)) (k : String) : List String :=
  (pairs.filter fun p => p.1 == k).map Prod.snd

/-- Translation of a declared name to the header wire convention
(spec section 4.2: word separators become hyphens). -/
def headerWire (name : String) : String :=
  String.mk (name.toList.map fun c => if c = '_' then '-' else c)

/-- Case-insensitive header lookup (spec section 4.2). -/
def headerLookup (hs : List (String × String)) (k : String) : Option String :=
  ((hs.filter fun p => lowerStr p.1 == lowerStr k).getLast?).map Prod.snd

/-- The location segment naming a source. -/
def sourceSeg : ParamSource → String
  | .path => "path"
  | .query => "query"
  | .header => "header"
  | .cookie => "cookie"
  | .body => "body"
  | .form => "form"
  | .file => "file"

/-- Raw scalar extraction per source (spec section 4.2 table). -/
def scalarRaw (d : ParamDecl) (req : RequestSnapshot) : Option String :=
  match d.source with
  | .path => req.pathVars.lookup (wireName d)
  | .query => lastLookup req.query (wireName d)
  | .header => headerLookup req.headers (headerWire (wireName d))
  | .cookie => req.cookies.lookup (wireName d)
  | .form => req.form.lookup (wireName d)
  | .file => req.parts.lookup (wireName d)
  | .body => none

/-- Modelled from the spec: coercion of a body document value to a declared
primitive type (spec section 4.3; the converted-data example of
`create_item`, src lines 161-168, shows numeric strings converting). -/
def jsonCoerce (t : PrimTy) (v : Val) : Option Val :=
  match t, v with
  | .pStr, .vStr s => some (.vStr s)
  | .pInt, .vInt n => some (.vInt n)
  | .pInt, .vStr s => (parseInt s).map .vInt
  | .pFloat, .vInt n => some (.vRat (n : Rat))
  | .pFloat, .vRat q => some (.vRat q)
  | .pFloat, .vStr s => (parseDecimal s).map .vRat
  | .pBool, .vBool b => some (.vBool b)
  | .pBool, .vStr s => (coerceBool s).map .vBool
  | _, _ => none

/-- Modelled from the spec: binding of one declared sub-field of a composite
against a body sub-document (spec section 4.3) - absence, then coercion, then
the ordered constraint checks, with the location path extended by the
sub-field name. -/
def bindSubField (base : List String) (doc : List (String × Val))
    (f : SubField) : Except FieldError Val :=
  let loc := base ++ [f.name]
  match doc.lookup f.name with
  | none =>
    if f.required then .error ⟨loc, "field required", .missing⟩
    else .ok f.default
  | some v =>
    match jsonCoerce f.ty v with
    | none => .error ⟨loc, "type error", .typeError⟩
    | some v2 =>
      match validateVal f.constraints loc v2 with
      | some e => .error e
      | none => .ok v2

/-- Modelled from the spec: binding of a composite parameter against its body
sub-document, accumulating one FieldError per invalid sub-field rather than
failing fast (spec section 4.3). -/
def bindComposite (base : List String) (fields : List SubField) (v : Val) :
    Except (List FieldError) Val :=
  match v with
  | .vObj doc =>
    let results := fields.map fun f => (f.name, bindSubField base doc f)
    let errs := results.filterMap fun p =>
      match p.2 with
      | .error e => some e
      | .ok _ => none
    if errs.isEmpty then
      .ok (.vObj (results.filterMap fun p =>
        match p.2 with
        | .ok v2 => some (p.1, v2)
        | .error _ => none))
    else .error errs
  | _ => .error [⟨base, "value is not a valid dict", .typeError⟩]

/-- The body sub-document a body parameter binds against: the sub-object
keyed by its wire name when embedded, else the whole body document
(spec section 4.2, Body row). -/
def bodyDoc (d : ParamDecl) (req : RequestSnapshot) : Option Val :=
  match req.body with
  | none => none
  | some bv =>
    if d.embed then
      match bv with
      | .vObj fs => fs.lookup (wireName d)
      | _ => none
    else some bv

/-- Location prefix of a body parameter. -/
def bodyLoc (d : ParamDecl) : List String :=
  if d.embed then ["body", wireName d] else ["body"]

/-- Modelled from the spec: binding of one body parameter
(spec sections 4.2-4.3). -/
def bindBodyParam (d : ParamDecl) (req : RequestSnapshot) :
    Except (List FieldError) Val :=
  match bodyDoc d req with
  | none =>
    if d.required then .error [⟨bodyLoc d, "field required", .missing⟩]
    else .ok d.default
  | some v =>
    match d.ty with
    | .composite fields => bindComposite (bodyLoc d) fields v
    | .prim t =>
      match jsonCoerce t v with
      | none => .error [⟨bodyLoc d, "type error", .typeError⟩]
      | some v2 =>
        match validateVal d.constraints (bodyLoc d) v2 with
        | some e => .error [e]
        | none => .ok v2
    | .listOf _ => .error [⟨bodyLoc d, "unsupported declaration", .typeError⟩]

/-- Modelled from the spec: binding of a collection-of-primitive query
parameter - every value for the key, coerced element-wise with per-index
error locations, then the size constraints (spec sections 4.2-4.3). -/
def bindQueryList (d : ParamDecl) (t : PrimTy) (req : RequestSnapshot) :
    Except (List FieldError) Val :=
  let loc := [sourceSeg d.source, wireName d]
  let raws := allValues req.query (wireName d)
  if raws.isEmpty then
    if d.required then .error [⟨loc, "field required", .missing⟩]
    else .ok d.default
  else
    let results := raws.enum.map fun p =>
      match wireCoerce t p.2 with
      | none =>
        (Except.error ⟨loc ++ [toString p.1], "type error", .typeError⟩ :
          Except FieldError Val)
      | some v => Except.ok v
    let errs := results.filterMap fun r =>
      match r with
      | .error e => some e
      | .ok _ => none
    if errs.isEmpty then
      let v := Val.vList (results.filterMap fun r =>
        match r with
        | .ok v => some v
        | .error _ => none)
      match validateVal d.constraints loc v with
      | some e => .error [e]
      | none => .ok v
    else .error errs

/-- Modelled from the spec: binding of one declared parameter against a
request (spec sections 4.2-4.3). -/
def bindParam (d : ParamDecl) (req : RequestSnapshot) :
    Except (List FieldError) Val :=
  match d.source, d.ty with
  | .body, _ => bindBodyParam d req
  | .query, .listOf t => bindQueryList d t req
  | _, .prim t =>
    match bindWireField t d.constraints [sourceSeg d.source, wireName d]
        d.required d.default (scalarRaw d req) with
    | .error e => .error [e]
    | .ok v => .ok v
  | _, _ =>
    .error [⟨[sourceSeg d.source, wireName d], "unsupported declaration",
      .typeError⟩]

/-- The FieldErrors one parameter contributes (empty when it binds). -/
def paramErrors (d : ParamDecl) (req : RequestSnapshot) : List FieldError :=
  match bindParam d req with
  | .error es => es
  | .ok _ => []

/-- All FieldErrors of a request, over every declared parameter in
declaration order (spec section 4.3: binding is not fail-fast across
fields). -/
def collectErrors (decls : List ParamDecl) (req : RequestSnapshot) :
    List FieldError :=
  (decls.map fun d => paramErrors d req).flatten

/-- Modelled from the spec: binding of an entire request - every declared
parameter is attempted and all FieldErrors are collected before returning the
error result (spec section 4.3). -/
def bindRequest (decls : List ParamDecl) (req : RequestSnapshot) :
    Except (List FieldError) (List (String × Val)) :=
  let errs := collectErrors decls req
  if errs.isEmpty then
    .ok (decls.filterMap fun d =>
      match bindParam d req with
      | .ok v => some (d.name, v)
      | .error _ => none)
  else .error errs

/-- Registration-time configuration errors (spec section 7). -/
inductive ConfigError where
  | ambiguousBodyConfiguration
  deriving DecidableEq

/-- How composite body parameters are laid out in the request body. -/
inductive BodyLayout where
  | noBody
  | flatSingle (name : String)
  | nested (names : List String)
  deriving DecidableEq

/-- Modelled from the spec: registration-time resolution of the body layout
(spec section 4.1, second paragraph).  A single composite may be flattened to
the top level of the body; with two or more composites each is nested under
its own parameter name, and demanding flattening is rejected as ambiguous at
registration time. -/
def resolveBodyLayout (compositeNames : List String) (flattenRequested : Bool) :
    Except ConfigError BodyLayout :=
  match compositeNames with
  | [] => .ok .noBody
  | [n] => .ok (if flattenRequested then .flatSingle n else .nested [n])
  | ns =>
    if flattenRequested then .error .ambiguousBodyConfiguration
    else .ok (.nested ns)

/-- Sub-fields of the `Item` request model (src lines 34-38): required name
and price, optional description and tax defaulting to null. -/
def itemFields : List SubField :=
  [⟨"name", .pStr, true, .vNull, noConstraints⟩,
   ⟨"description", .pStr, false, .vNull, noConstraints⟩,
   ⟨"price", .pFloat, true, .vNull, noConstraints⟩,
   ⟨"tax", .pFloat, false, .vNull, noConstraints⟩]

/-- The `Item` model as a declared composite type. -/
def itemTy : TyKind := .composite itemFields

/-- Sub-fields of the `User` model (src lines 51-53). -/
def userFields : List SubField :=
  [⟨"username", .pStr, true, .vNull, noConstraints⟩,
   ⟨"full_name", .pStr, false, .vNull, noConstraints⟩]

/-- The `User` model as a declared composite type. -/
def userTy : TyKind := .composite userFields

/-- Path-template variables of the route of `create_item3`,
`/items3/{item_id}` (src line 209). -/
def create_item3_pathVars : List String := ["item_id"]

/-- The numeric bounds of the item_id parameter of `update_item5`
(src line 268): inclusive ge=0 and le=1000. -/
def itemIdBounds : Constraints :=
  ⟨some 0, none, some 1000, none, none, none, none, none, none⟩

/-- The item_id parameter declaration of `update_item5` (src line 268):
a required path parameter of type int with ge=0, le=1000. -/
def update_item5_item_id : ParamDecl :=
  ⟨"item_id", none, .path, .prim .pInt, true, .vNull, itemIdBounds, false⟩

/-- A request snapshot whose route match bound item_id to the given raw
string, with everything else empty. -/
def pathOnlyReq (s : String) : RequestSnapshot :=
  ⟨[("item_id", s)], [], [], [], [], [], none⟩

/-- The parameter declarations of `update_item7` (src lines 313-323):
item_id from the path, the composites item and user nested in the body, and
the required singular body value importance. -/
def update_item7_decls : List ParamDecl :=
  [⟨"item_id", none, .path, .prim .pInt, true, .vNull, noConstraints, false⟩,
   ⟨"item", none, .body, itemTy, true, .vNull, noConstraints, true⟩,
   ⟨"user", none, .body, userTy, true, .vNull, noConstraints, true⟩,
   ⟨"importance", none, .body, .prim .pInt, true, .vNull, noConstraints, true⟩]

/-- A request for `update_item7` whose body supplies item but omits both
user and importance: two declared fields are invalid at once. -/
def update_item7_badReq : RequestSnapshot :=
  ⟨[("item_id", "5")], [], [], [], [], [],
   some (.vObj [("item", .vObj [("name", .vStr "Foo"), ("price", .vRat 42)])])⟩

mutual

/-- Structural equality test on values. -/
def Val.beq : Val → Val → Bool
  | .vNull, .vNull => true
  | .vBool a, .vBool b => a == b
  | .vInt a, .vInt b => a == b
  | .vRat a, .vRat b => a == b
  | .vStr a, .vStr b => a == b
  | .vList xs, .vList ys => Val.beqList xs ys
  | .vObj xs, .vObj ys => Val.beqObj xs ys
  | _, _ => false

/-- Element-wise equality test on value lists. -/
def Val.beqList : List Val → List Val → Bool
  | [], [] => true
  | x :: xs, y :: ys => Val.beq x y && Val.beqList xs ys
  | _, _ => false

/-- Entry-wise equality test on field lists. -/
def Val.beqObj : List (String × Val) → List (String × Val) → Bool
  | [], [] => true
  | x :: xs, y :: ys => x.1 == y.1 && Val.beq x.2 y.2 && Val.beqObj xs ys
  | _, _ => false

end

/-- Whether a value is the null value. -/
def Val.isNull : Val → Bool
  | .vNull => true
  | _ => false

/-- A requested field-set policy for response shaping (spec section 4.4):
exclude_unset, exclude_defaults, exclude_none, and explicit include and
exclude name sets, layered in that order. -/
structure ShapePolicy where
  excludeUnset : Bool
  excludeDefaults : Bool
  excludeNone : Bool
  includeNames : Option (List String)
  excludeNames : Option (List String)

/-- A server-computed response value: its fields in declared order plus the
set of field names that were explicitly set. -/
structure ResponseValue where
  fields : List (String × Val)
  setFields : List String

/-- Modelled from the spec: response shaping (spec section 4.4) - the policy
filters are applied in the listed order as successive filters over the field
set, dropping excluded fields while preserving declared field order; the
shaping is a pure function of its inputs. -/
def shapeResponse (defaults : List (String × Val)) (pol : ShapePolicy)
    (v : ResponseValue) : List (String × Val) :=
  let f1 :=
    if pol.excludeUnset then v.fields.filter fun p => v.setFields.contains p.1
    else v.fields
  let f2 :=
    if pol.excludeDefaults then
      f1.filter fun p =>
        match defaults.lookup p.1 with
        | some dv => !(Val.beq p.2 dv)
        | none => true
    else f1
  let f3 :=
    if pol.excludeNone then f2.filter fun p => !(p.2.isNull)
    else f2
  let f4 :=
    match pol.includeNames with
    | none => f3
    | some inc => f3.filter fun p => inc.contains p.1
  match pol.excludeNames with
  | none => f4
  | some exc => f4.filter fun p => !(exc.contains p.1)

/-- Declared field order of the `Item2` response model (src lines 409-414). -/
def item2FieldOrder : List String :=
  ["name", "description", "price", "tax", "tags"]

/-- Declared defaults of `Item2` (src lines 409-414): description null,
tax 10.5, tags the empty list. -/
def item2Defaults : List (String × Val) :=
  [("description", .vNull), ("tax", .vRat (21 / 2)), ("tags", .vList [])]

/-- The shaping policy registered for `read_item13` (src lines 435-443):
response_model_exclude_unset=True and nothing else. -/
def read_item13_policy : ShapePolicy := ⟨true, false, false, none, none⟩

/-- An `Item2`-shaped response value in which only name and price were
explicitly set; the remaining fields hold arbitrary values (their declared
defaults, in the source). -/
def item2UnsetValue (nameV priceV descV taxV tagsV : Val) : ResponseValue :=
  ⟨[("name", nameV), ("description", descV), ("price", priceV),
    ("tax", taxV), ("tags", tagsV)],
   ["name", "price"]⟩

/-- Kinds of exceptions a handler invocation can surface, as registration
keys of the exception-handler table. -/
inductive ExcKind where
  | unicornExc
  | requestValidationErr
  | starletteHTTPExc
  | otherExc
  deriving DecidableEq

/-- An exception instance carried to dispatch. -/
inductive Exc where
  | unicorn (name : String)
  | validation (errs : String)
  | httpExc (status : Nat) (detail : String)
  | other (description : String)

/-- The registration key of an exception instance. -/
def Exc.kind : Exc → ExcKind
  | .unicorn _ => .unicornExc
  | .validation _ => .requestValidationErr
  | .httpExc _ _ => .starletteHTTPExc
  | .other _ => .otherExc

/-- An outgoing response: status code, media type and body. -/
structure Response where
  status : Nat
  mediaType : String
  body : Val

/-- The generic server-fault response produced for unmapped exceptions. -/
def serverFault : Response :=
  ⟨500, "text/plain", .vStr "Internal Server Error"⟩

/-- The handler registered for UnicornException (src lines 545-554): a JSON
response with status 418. -/
def unicorn_exception_handler (exc : Exc) : Response :=
  match exc with
  | .unicorn n =>
    ⟨418, "application/json",
     .vObj [("message",
       .vStr ("Oops! " ++ n ++ " did something. There goes a rainbow..."))]⟩
  | _ => serverFault

/-- The handler registered for RequestValidationError (src lines 567-571):
the stringified errors as plain text with status 400. -/
def validation_exception_handler (exc : Exc) : Response :=
  match exc with
  | .validation s => ⟨400, "text/plain", .vStr s⟩
  | _ => serverFault

/-- The handler registered for StarletteHTTPException (src lines 582-586):
the detail as plain text with the carried status code. -/
def http_exception_handler (exc : Exc) : Response :=
  match exc with
  | .httpExc st detail => ⟨st, "text/plain", .vStr detail⟩
  | _ => serverFault

/-- The exception-handler registrations of the source module, in source
order (src lines 545, 567, 582). -/
def exceptionHandlerTable : List (ExcKind × (Exc → Response)) :=
  [(.unicornExc, unicorn_exception_handler),
   (.requestValidationErr, validation_exception_handler),
   (.starletteHTTPExc, http_exception_handler)]

/-- Modelled from the spec: lookup in the registration-time table with
last-registered-wins per kind (spec section 6). -/
def lookupHandler (table : List (ExcKind × (Exc → Response))) (k : ExcKind) :
    Option (Exc → Response) :=
  ((table.filter fun p => p.1 == k).getLast?).map Prod.snd

/-- Modelled from the spec: dispatch of a raised exception through the
table; exceptions of unmapped kinds propagate as the generic server-fault
response (spec section 7). -/
def dispatchException (table : List (ExcKind × (Exc → Response)))
    (exc : Exc) : Response :=
  match lookupHandler table exc.kind with
  | some h => h exc
  | none => serverFault

/-- The dictionary bound to the module-level name items at src lines
417-432: the three-entry mapping of the exclude_unset example. -/
def items_first : Val :=
  .vObj
    [("foo", .vObj [("name", .vStr "Foo"), ("price", .vRat (251 / 5))]),
     ("bar", .vObj [("name", .vStr "Bar"),
       ("description", .vStr "The bartenders"),
       ("price", .vInt 62), ("tax", .vRat (101 / 5))]),
     ("baz", .vObj [("name", .vStr "Baz"), ("description", .vNull),
       ("price", .vRat (251 / 5)), ("tax", .vRat (21 / 2)),
       ("tags", .vList [])])]

/-- The dictionary bound to the module-level name items at src line 526:
the one-entry mapping of the error-handling section. -/
def items_second : Val :=
  .vObj [("foo", .vStr "The Foo Wrestlers")]

/-- The module-level assignments to the name items, in source order
(src lines 417 and 526). -/
def items_assignments : List Val := [items_first, items_second]

/-- The binding of the name items visible after module evaluation: in Python
the later module-level assignment rebinds the name, so the last assignment
wins. -/
def items : Val := (items_assignments.getLast?).getD .vNull

/-- Runtime faults of the embedded handler bodies. -/
inductive PyRuntimeError where
  | keyError (key : String)
  deriving DecidableEq

/-- Python dictionary subscription: a missing key raises KeyError. -/
def dictGet (d : Val) (k : String) : Except PyRuntimeError Val :=
  match d with
  | .vObj fs =>
    match fs.lookup k with
    | some v => .ok v
    | none => .error (.keyError k)
  | _ => .error (.keyError k)

/-- The handler body of `read_item13` (src lines 435-445): it evaluates the
subscription items[item_id] at request time, against the binding of items
that is current after module evaluation. -/
def read_item13 (item_id : String) : Except PyRuntimeError Val :=
  dictGet items item_id

/-- The `Item` request model as a bound value (src lines 34-38). -/
structure Item where
  name : String
  description : Option String
  price : Rat
  tax : Option Rat

/-- The dict() view of a bound `Item`: its fields in declared order, optional
fields rendering as null when absent. -/
def Item.dict (it : Item) : List (String × Val) :=
  [("name", .vStr it.name),
   ("description",
     match it.description with
     | none => .vNull
     | some s => .vStr s),
   ("price", .vRat it.price),
   ("tax",
     match it.tax with
     | none => .vNull
     | some q => .vRat q)]

/-- Python truthiness of the optional tax field: None and 0.0 are falsy,
every other number is truthy. -/
def truthyOptRat : Option Rat → Bool
  | none => false
  | some q => decide (q ≠ 0)

/-- The handler body of `create_item` (src lines 146-183): it returns the
dict of the bound item, extended with price_with_tax when the tax field is
truthy. -/
def create_item (item : Item) : List (String × Val) :=
  let item_dict := Item.dict item
  if truthyOptRat item.tax then
    item_dict ++ [("price_with_tax", .vRat (item.price + item.tax.getD 0))]
  else item_dict

/-- The documented request body of update_item6 (src lines 281-292): the two
composite parameters item and user, each nested under its own parameter
name. -/
def update_item6_body : Val :=
  .vObj
    [("item", .vObj [("name", .vStr "Foo"),
       ("description", .vStr "The pretender"),
       ("price", .vRat 42), ("tax", .vRat (16 / 5))]),
     ("user", .vObj [("username", .vStr "dave"),
       ("full_name", .vStr "Dave Grohl")])]

/-- A request for update_item6 carrying the documented body. -/
def update_item6_req : RequestSnapshot :=
  ⟨[("item_id", "5")], [], [], [], [], [], some update_item6_body⟩

/-- The user parameter declaration of update_item6 (src line 294), embedded
because multiple composite body parameters coexist. -/
def update_item6_user : ParamDecl :=
  ⟨"user", none, .body, userTy, true, .vNull, noConstraints, true⟩


/-- C1: for a handler parameter declared without an explicit source
annotation, the source is resolved once at registration time by fixed
precedence: a name matching a path-template variable of the registered route
binds from the path regardless of its declared type; otherwise a composite
declared type binds from the request body; otherwise (primitive or
collection of primitives) from the query string. -/
theorem resolveSource_precedence (routePathVars : List String) (name : String)
    (ty : TyKind) :
    (name ∈ routePathVars → resolveSource routePathVars name ty = .path) ∧
    (name ∉ routePathVars → ty.isComposite = true →
      resolveSource routePathVars name ty = .body) ∧
    (name ∉ routePathVars → ty.isComposite = false →
      resolveSource routePathVars name ty = .query) := by
  refine ⟨fun h => ?_, fun h hc => ?_, fun h hc => ?_⟩
  · simp [resolveSource, h]
  · simp [resolveSource, h, hc]
  · simp [resolveSource, h, hc]

/-- Witness for C1 at the parameters of create_item3 (src lines 209-216):
the path-named int binds from the path, the Item-typed parameter from the
body, the primitive q from the query. -/
theorem resolveSource_precedence_witness :
    resolveSource create_item3_pathVars "item_id" (.prim .pInt) = .path ∧
    resolveSource create_item3_pathVars "item" itemTy = .body ∧
    resolveSource create_item3_pathVars "q" (.prim .pStr) = .query :=
  ⟨(resolveSource_precedence create_item3_pathVars "item_id" (.prim .pInt)).1
      (by decide),
   (resolveSource_precedence create_item3_pathVars "item" itemTy).2.1
      (by decide) (by decide),
   (resolveSource_precedence create_item3_pathVars "q" (.prim .pStr)).2.2
      (by decide) (by decide)⟩

/-- C3: for a parameter of boolean type, coercion of the raw wire string
maps true, 1, yes and on (case-insensitively) to true and false, 0, no and
off to false, while binding any other literal yields a FieldError of kind
type_error. -/
theorem coerceBool_table (s : String) (c : Constraints) (loc : List String)
    (r : Bool) (d : Val) :
    (lowerStr s = "true" ∨ lowerStr s = "1" ∨ lowerStr s = "yes" ∨
        lowerStr s = "on" → coerceBool s = some true) ∧
    (lowerStr s = "false" ∨ lowerStr s = "0" ∨ lowerStr s = "no" ∨
        lowerStr s = "off" → coerceBool s = some false) ∧
    (lowerStr s ≠ "true" → lowerStr s ≠ "1" → lowerStr s ≠ "yes" →
      lowerStr s ≠ "on" → lowerStr s ≠ "false" → lowerStr s ≠ "0" →
      lowerStr s ≠ "no" → lowerStr s ≠ "off" →
      bindWireField .pBool c loc r d (some s) =
        .error ⟨loc, "type error", .typeError⟩) := by
  refine ⟨fun h => ?_, fun h => ?_, fun h1 h2 h3 h4 h5 h6 h7 h8 => ?_⟩
  · simp only [coerceBool]
    rw [if_pos h]
  · rcases h with h | h | h | h <;> simp [coerceBool, h]
  · have hc : coerceBool s = none := by
      simp only [coerceBool]
      rw [if_neg (by simp [h1, h2, h3, h4]), if_neg (by simp [h5, h6, h7, h8])]
    simp [bindWireField, wireCoerce, hc]

/-- Witness for C3 at the literals demonstrated for the short query
parameter of read_item (src lines 70-77). -/
theorem coerceBool_table_witness :
    coerceBool "TRUE" = some true ∧ coerceBool "Off" = some false ∧
    bindWireField .pBool noConstraints ["query", "short"] false
        (.vBool false) (some "banana") =
      .error ⟨["query", "short"], "type error", .typeError⟩ :=
  ⟨(coerceBool_table "TRUE" noConstraints ["query", "short"] false
      (.vBool false)).1 (Or.inl (by decide)),
   (coerceBool_table "Off" noConstraints ["query", "short"] false
      (.vBool false)).2.1 (Or.inr (Or.inr (Or.inr (by decide)))),
   (coerceBool_table "banana" noConstraints ["query", "short"] false
      (.vBool false)).2.2 (by decide) (by decide) (by decide) (by decide)
      (by decide) (by decide) (by decide) (by decide)⟩

/-- C4: per field the checks run in the fixed order missing, type coercion,
numeric bounds, string length, pattern, collection size, short-circuiting so
the first violated check wins: a required field absent from its source
reports exactly the one FieldError of kind missing at that field and never
additionally a type or constraint error; a non-required absent field binds
its declared default; a coercion failure wins over every constraint check;
and within the constraints the earlier check wins. -/
theorem bindWireField_order (t : PrimTy) (c : Constraints) (loc : List String)
    (d : Val) (s : String) (v : Val) (e : FieldError) :
    (bindWireField t c loc true d none =
      .error ⟨loc, "field required", .missing⟩) ∧
    (bindWireField t c loc false d none = .ok d) ∧
    (wireCoerce t s = none → ∀ r : Bool,
      bindWireField t c loc r d (some s) =
        .error ⟨loc, "type error", .typeError⟩) ∧
    (checkNumericBounds c v = false →
      validateVal c loc v =
        some ⟨loc, "value out of range", .constraintViolation .range⟩) ∧
    (checkNumericBounds c v = true → checkStringLength c v = false →
      validateVal c loc v =
        some ⟨loc, "string length out of bounds",
          .constraintViolation .length⟩) ∧
    (checkNumericBounds c v = true → checkStringLength c v = true →
      checkPattern c v = false →
      validateVal c loc v =
        some ⟨loc, "pattern mismatch", .constraintViolation .pattern⟩) ∧
    (checkNumericBounds c v = true → checkStringLength c v = true →
      checkPattern c v = true → checkSize c v = false →
      validateVal c loc v =
        some ⟨loc, "collection size out of bounds",
          .constraintViolation .size⟩) ∧
    (wireCoerce t s = some v → validateVal c loc v = some e → ∀ r : Bool,
      bindWireField t c loc r d (some s) = .error e) := by
  refine ⟨rfl, rfl, fun hc r => ?_, fun h1 => ?_, fun h1 h2 => ?_,
    fun h1 h2 h3 => ?_, fun h1 h2 h3 h4 => ?_, fun hc hv r => ?_⟩
  · simp [bindWireField, hc]
  · simp [validateVal, h1]
  · simp [validateVal, h1, h2]
  · simp [validateVal, h1, h2, h3]
  · simp [validateVal, h1, h2, h3, h4]
  · simp [bindWireField, hc, hv]

/-- Witness for C4 at the parameters of read_user_item2 (src lines 92-97)
and the bounded item_id of update_item5 (src line 268): the required needy
absent from the query yields exactly the missing error, the optional skip
binds its declared default 0, a non-numeric value for limit yields the type
error, and the out-of-bounds 1001 yields the range violation. -/
theorem bindWireField_order_witness :
    bindWireField .pStr noConstraints ["query", "needy"] true .vNull none =
      .error ⟨["query", "needy"], "field required", .missing⟩ ∧
    bindWireField .pInt noConstraints ["query", "skip"] false (.vInt 0)
        none = .ok (.vInt 0) ∧
    bindWireField .pInt noConstraints ["query", "limit"] false .vNull
        (some "ten") =
      .error ⟨["query", "limit"], "type error", .typeError⟩ ∧
    validateVal itemIdBounds ["path", "item_id"] (.vInt 1001) =
      some ⟨["path", "item_id"], "value out of range",
        .constraintViolation .range⟩ :=
  ⟨(bindWireField_order .pStr noConstraints ["query", "needy"] .vNull ""
      .vNull ⟨[], "", .missing⟩).1,
   (bindWireField_order .pInt noConstraints ["query", "skip"] (.vInt 0) ""
      .vNull ⟨[], "", .missing⟩).2.1,
   (bindWireField_order .pInt noConstraints ["query", "limit"] .vNull "ten"
      .vNull ⟨[], "", .missing⟩).2.2.1 rfl false,
   (bindWireField_order .pInt itemIdBounds ["path", "item_id"] .vNull ""
      (.vInt 1001) ⟨[], "", .missing⟩).2.2.2.1 (by decide)⟩

/-- C5: for the item_id of update_item5, a numeric path parameter declared
with inclusive bounds ge=0 and le=1000, binding -1 yields exactly one
ConstraintViolation FieldError of sub-kind range at that parameter, binding
1001 likewise yields exactly one such error, and binding 500 succeeds. -/
theorem update_item5_item_id_bounds :
    bindParam update_item5_item_id (pathOnlyReq "-1") =
      .error [⟨["path", "item_id"], "value out of range",
        .constraintViolation .range⟩] ∧
    bindParam update_item5_item_id (pathOnlyReq "1001") =
      .error [⟨["path", "item_id"], "value out of range",
        .constraintViolation .range⟩] ∧
    bindParam update_item5_item_id (pathOnlyReq "500") = .ok (.vInt 500) := by
  refine ⟨?_, ?_, ?_⟩ <;> rfl

/-- C2: binding a request is not fail-fast across fields: whenever two or
more declared parameters are invalid, the binder still attempts every
declared parameter and returns a single Err collecting the errors of every
failing parameter in declaration order, one FieldError per invalid field. -/
theorem bindRequest_not_fail_fast (decls : List ParamDecl)
    (req : RequestSnapshot)
    (h : 2 ≤ (decls.filter fun d => !(paramErrors d req).isEmpty).length) :
    bindRequest decls req = .error (collectErrors decls req) ∧
    (∀ d ∈ decls, ∀ e ∈ paramErrors d req,
      e ∈ collectErrors decls req) ∧
    (collectErrors decls req).length =
      (decls.map fun d => (paramErrors d req).length).sum := by
  have hmem : ∀ d ∈ decls, ∀ e ∈ paramErrors d req,
      e ∈ collectErrors decls req := by
    intro d hd e he
    exact List.mem_flatten.2
      ⟨paramErrors d req, List.mem_map_of_mem _ hd, he⟩
  have hne : collectErrors decls req ≠ [] := by
    have h0 : 0 < (decls.filter fun d => !(paramErrors d req).isEmpty).length :=
      lt_of_lt_of_le (by norm_num) h
    obtain ⟨d, hd⟩ := List.exists_mem_of_ne_nil _ (List.length_pos.1 h0)
    have hd2 := List.mem_filter.1 hd
    have hdne : paramErrors d req ≠ [] := by
      intro hnil
      rw [hnil] at hd2
      simp at hd2
    obtain ⟨e, he⟩ := List.exists_mem_of_ne_nil _ hdne
    intro hc
    have hmem2 := hmem d hd2.1 e he
    rw [hc] at hmem2
    simp at hmem2
  have hempty : (collectErrors decls req).isEmpty = false := by
    cases hcoll : collectErrors decls req
    · exact absurd hcoll hne
    · rfl
  refine ⟨?_, hmem, ?_⟩
  · simp [bindRequest, hempty]
  · simp [collectErrors, List.length_flatten, List.map_map]
    rfl

/-- Witness for C2 at update_item7 (src lines 313-323): a request whose body
supplies item but omits both user and importance yields a single Err
carrying exactly the two missing-field errors. -/
theorem bindRequest_not_fail_fast_witness :
    bindRequest update_item7_decls update_item7_badReq =
      .error [⟨["body", "user"], "field required", .missing⟩,
        ⟨["body", "importance"], "field required", .missing⟩] ∧
    (collectErrors update_item7_decls update_item7_badReq).length = 2 := by
  refine ⟨?_, by decide⟩
  have h :=
    (bindRequest_not_fail_fast update_item7_decls update_item7_badReq
      (by decide)).1
  rw [h]
  rfl

/-- C6: when two or more composite body parameters coexist each is expected
nested in the request body keyed by its own parameter name - an embedded
parameter binds the sub-document stored under its wire name - while
requesting top-level flattening with two or more composites is rejected
with a configuration error at registration time, not per request. -/
theorem resolveBodyLayout_multi (ns : List String) (flatten : Bool)
    (h : 2 ≤ ns.length) (d : ParamDecl) (fs : List (String × Val))
    (req : RequestSnapshot) :
    (flatten = true →
      resolveBodyLayout ns flatten = .error .ambiguousBodyConfiguration) ∧
    (flatten = false →
      resolveBodyLayout ns flatten = .ok (.nested ns)) ∧
    (d.embed = true → req.body = some (.vObj fs) →
      bodyDoc d req = fs.lookup (wireName d)) := by
  refine ⟨fun hf => ?_, fun hf => ?_, fun he hb => ?_⟩
  · match ns, h with
    | a :: b :: t, _ => simp [resolveBodyLayout, hf]
  · match ns, h with
    | a :: b :: t, _ => simp [resolveBodyLayout, hf]
  · simp [bodyDoc, hb, he]

/-- Witness for C6 at update_item6 (src lines 293-296): the two composites
item and user are nested each under its own name, flattening them is
rejected at registration time, and the embedded user parameter binds the
sub-document keyed by user in the documented body. -/
theorem resolveBodyLayout_multi_witness :
    resolveBodyLayout ["item", "user"] true =
      .error .ambiguousBodyConfiguration ∧
    resolveBodyLayout ["item", "user"] false = .ok (.nested ["item", "user"]) ∧
    bodyDoc update_item6_user update_item6_req =
      some (.vObj [("username", .vStr "dave"),
        ("full_name", .vStr "Dave Grohl")]) := by
  refine ⟨(resolveBodyLayout_multi ["item", "user"] true (by decide)
      update_item6_user [] update_item6_req).1 rfl,
    (resolveBodyLayout_multi ["item", "user"] false (by decide)
      update_item6_user [] update_item6_req).2.1 rfl, ?_⟩
  have h := (resolveBodyLayout_multi ["item", "user"] true (by decide)
      update_item6_user
      [("item", .vObj [("name", .vStr "Foo"),
         ("description", .vStr "The pretender"),
         ("price", .vRat 42), ("tax", .vRat (16 / 5))]),
       ("user", .vObj [("username", .vStr "dave"),
         ("full_name", .vStr "Dave Grohl")])]
      update_item6_req).2.2 rfl rfl
  rw [h]
  rfl

/-- C7: response shaping with the exclude_unset policy of read_item13 is a
pure function that, on every Item2-shaped value in which only name and price
were explicitly set, keeps exactly those set fields in declared order and
never includes description, tax or tags despite their declared defaults. -/
theorem read_item13_exclude_unset (nameV priceV descV taxV tagsV : Val) :
    shapeResponse item2Defaults read_item13_policy
        (item2UnsetValue nameV priceV descV taxV tagsV) =
      [("name", nameV), ("price", priceV)] ∧
    (shapeResponse item2Defaults read_item13_policy
        (item2UnsetValue nameV priceV descV taxV tagsV)).map Prod.fst =
      ["name", "price"] ∧
    "description" ∉ (shapeResponse item2Defaults read_item13_policy
        (item2UnsetValue nameV priceV descV taxV tagsV)).map Prod.fst ∧
    "tax" ∉ (shapeResponse item2Defaults read_item13_policy
        (item2UnsetValue nameV priceV descV taxV tagsV)).map Prod.fst ∧
    "tags" ∉ (shapeResponse item2Defaults read_item13_policy
        (item2UnsetValue nameV priceV descV taxV tagsV)).map Prod.fst := by
  have h : shapeResponse item2Defaults read_item13_policy
      (item2UnsetValue nameV priceV descV taxV tagsV) =
      [("name", nameV), ("price", priceV)] := rfl
  have hk : (shapeResponse item2Defaults read_item13_policy
      (item2UnsetValue nameV priceV descV taxV tagsV)).map Prod.fst =
      ["name", "price"] := by
    rw [h]
    rfl
  refine ⟨h, hk, ?_, ?_, ?_⟩ <;> rw [hk] <;> decide

/-- C8: exception-to-response mappings are a registration-time table from
exception kind to response builder with last-registered-wins per kind: a
raised UnicornException produces the registered JSON response with status
418, a request validation failure produces the registered plain-text
status-400 override instead of the default 422 JSON detail document, and an
exception of an unmapped kind propagates as the generic server-fault
response. -/
theorem exception_dispatch (table : List (ExcKind × (Exc → Response)))
    (k : ExcKind) (hd : Exc → Response) (n s msg : String) :
    lookupHandler (table ++ [(k, hd)]) k = some hd ∧
    dispatchException exceptionHandlerTable (.unicorn n) =
      ⟨418, "application/json",
        .vObj [("message", .vStr
          ("Oops! " ++ n ++ " did something. There goes a rainbow..."))]⟩ ∧
    dispatchException exceptionHandlerTable (.validation s) =
      ⟨400, "text/plain", .vStr s⟩ ∧
    lookupHandler exceptionHandlerTable .otherExc = none ∧
    dispatchException exceptionHandlerTable (.other msg) = serverFault := by
  refine ⟨?_, rfl, rfl, rfl, rfl⟩
  simp [lookupHandler, List.filter_append]

/-- C9: the module-level name items is bound twice and after module
evaluation refers to the one-entry mapping of src line 526, not the
three-item dictionary of src lines 417-432; since read_item13 evaluates
items[item_id] at request time, every item_id other than foo (bar and baz
included) raises an unhandled KeyError - whose kind is unmapped in the
exception table, so it surfaces as the generic server fault with status
500, neither 404 nor a validation response - while foo returns a plain
string and never an object-shaped mapping. -/
theorem items_rebound (item_id : String) (h : item_id ≠ "foo") :
    items = .vObj [("foo", .vStr "The Foo Wrestlers")] ∧
    items ≠ items_first ∧
    read_item13 item_id = .error (.keyError item_id) ∧
    read_item13 "bar" = .error (.keyError "bar") ∧
    read_item13 "baz" = .error (.keyError "baz") ∧
    read_item13 "foo" = .ok (.vStr "The Foo Wrestlers") ∧
    (∀ fs, read_item13 "foo" ≠ .ok (.vObj fs)) ∧
    dispatchException exceptionHandlerTable (.other "KeyError") =
      serverFault ∧
    serverFault.status = 500 := by
  refine ⟨rfl, ?_, ?_, rfl, rfl, rfl, ?_, rfl, rfl⟩
  · intro hEq
    simp [items, items_assignments, items_second, items_first] at hEq
  · have hbeq : (item_id == "foo") = false := beq_eq_false_iff_ne.mpr h
    simp [read_item13, dictGet, items, items_assignments, items_second,
      List.lookup, hbeq]
  · intro fs hEq
    have hfoo : read_item13 "foo" = .ok (.vStr "The Foo Wrestlers") := rfl
    rw [hfoo] at hEq
    simp at hEq

/-- Witness for C9 at the concrete keys bar and foo. -/
theorem items_rebound_witness :
    read_item13 "bar" = .error (.keyError "bar") ∧
    read_item13 "foo" = .ok (.vStr "The Foo Wrestlers") :=
  ⟨(items_rebound "bar" (by decide)).2.2.2.1,
   (items_rebound "bar" (by decide)).2.2.2.2.2.1⟩

/-- C10 counterexample: an explicit zero tax is distinguishable in the
output of create_item from an absent tax - the echoed tax field is the
number 0.0 in the one response and null in the other - so the
indistinguishability part of the claim fails at this input. -/
theorem create_item_zero_vs_absent_tax :
    create_item ⟨"Foo", none, 1, some 0⟩ ≠
      create_item ⟨"Foo", none, 1, none⟩ := by
  intro hEq
  have h0 : create_item ⟨"Foo", none, 1, some 0⟩ =
      [("name", .vStr "Foo"), ("description", .vNull), ("price", .vRat 1),
        ("tax", .vRat 0)] := rfl
  have h1 : create_item ⟨"Foo", none, 1, none⟩ =
      [("name", .vStr "Foo"), ("description", .vNull), ("price", .vRat 1),
        ("tax", .vNull)] := rfl
  rw [h0, h1] at hEq
  simp at hEq

/-- C10 amended: the response of create_item contains the key
price_with_tax if and only if the bound tax field is truthy; a body that
sets tax to 0.0 and a body that leaves the None default both yield exactly
the dict of the bound item, omitting price_with_tax (though the echoed tax
field itself still differs between the two); when tax is truthy the
response is the dict of the item extended with price_with_tax, so all other
returned fields always equal the bound item fields. -/
theorem create_item_tax_spec (item : Item) :
    (("price_with_tax" ∈ (create_item item).map Prod.fst) ↔
      truthyOptRat item.tax = true) ∧
    (item.tax = some 0 → create_item item = Item.dict item) ∧
    (item.tax = none → create_item item = Item.dict item) ∧
    (truthyOptRat item.tax = true →
      create_item item = Item.dict item ++
        [("price_with_tax", .vRat (item.price + item.tax.getD 0))]) := by
  refine ⟨?_, fun h => ?_, fun h => ?_, fun h => ?_⟩
  · constructor
    · intro hmem
      by_contra hfalse
      have ht : truthyOptRat item.tax = false := by
        cases htr : truthyOptRat item.tax
        · rfl
        · exact absurd htr hfalse
      have hci : create_item item = Item.dict item := by
        simp [create_item, ht]
      rw [hci] at hmem
      simp [Item.dict] at hmem
    · intro ht
      simp [create_item, ht, Item.dict]
  · simp [create_item, truthyOptRat, h]
  · simp [create_item, truthyOptRat, h]
  · simp [create_item, h]

/-- Witness for C10 at concrete items: tax 0.0 and tax absent both return
exactly the item dict; a truthy tax 2.0 on price 7.0 appends
price_with_tax. -/
theorem create_item_tax_spec_witness :
    create_item ⟨"Foo", none, 7, some 0⟩ = Item.dict ⟨"Foo", none, 7, some 0⟩ ∧
    create_item ⟨"Foo", none, 7, none⟩ = Item.dict ⟨"Foo", none, 7, none⟩ ∧
    create_item ⟨"Foo", none, 7, some 2⟩ = Item.dict ⟨"Foo", none, 7, some 2⟩
      ++ [("price_with_tax", .vRat (7 + 2))] :=
  ⟨(create_item_tax_spec ⟨"Foo", none, 7, some 0⟩).2.1 rfl,
   (create_item_tax_spec ⟨"Foo", none, 7, none⟩).2.2.1 rfl,
   (create_item_tax_spec ⟨"Foo", none, 7, some 2⟩).2.2.2 (by decide)⟩
